import Mathlib

/-!
Verification development for the gnu-agent-mastra repository.

This file gives a shallow embedding, in Lean 4, of the validation library,
the API transport's error-message extraction, the error classifier helpers
and the two workflow pipelines (patient registration, product with variant)
of the repository, together with theorems settling the frozen claims about
them.  JavaScript strings are modelled as Lean `String`, optional / possibly
`undefined` fields as `Option`, JavaScript truthiness of a string is
`s ≠ ""`, of a number `n ≠ 0`, and thrown exceptions as `Except`.  Network
I/O is modelled by an explicit oracle `ApiRequest → Except ApiErr resp`
passed to the workflow runner, which also records the list of issued
requests so that "zero network calls" is expressible.
-/

namespace GnuAgent

/-- JavaScript `s.includes(sub)`: `sub` occurs as a contiguous substring of `s`. -/
def containsSub (s sub : String) : Bool :=
  (List.range (s.toList.length + 1)).any fun i => sub.toList.isPrefixOf (s.toList.drop i)

/-- Truthiness of an optional JS string: `undefined` and `""` are falsy. -/
def strTruthy : Option String → Bool
  | some s => s ≠ ""
  | none => false

/-- JS `x || d` for an optional string: the fallback when the value is falsy. -/
def strOr (x : Option String) (d : String) : String :=
  match x with
  | some s => if s ≠ "" then s else d
  | none => d

/-- Digits of a numeral (most significant first) to a natural number. -/
def digitsToNat (l : List Char) : Nat :=
  l.foldl (fun a c => a * 10 + (c.toNat - 48)) 0

/-- JS `s.toLowerCase()` modelled on the ASCII range (the repository's
pattern lists are ASCII apart from pre-lowercased accented letters). -/
def jsToLower (s : String) : String :=
  ⟨s.toList.map Char.toLower⟩

/-- JS `s.trim()`: strip whitespace from both ends (list-level, so that it
evaluates inside the kernel). -/
def jsTrim (s : String) : String :=
  ⟨((s.toList.dropWhile Char.isWhitespace).reverse.dropWhile Char.isWhitespace).reverse⟩

/-- Split a character list at every occurrence of `sep`. -/
def splitCharAux (sep : Char) : List Char → List Char → List (List Char)
  | [], acc => [acc.reverse]
  | c :: cs, acc =>
    if c = sep then acc.reverse :: splitCharAux sep cs []
    else splitCharAux sep cs (c :: acc)

/-- Split a string at every occurrence of the separator character
(`String.splitOn` for a one-character separator, kernel-evaluable). -/
def splitOnChar (sep : Char) (s : String) : List String :=
  (splitCharAux sep s.toList []).map (fun l => ⟨l⟩)

/- ===================== Validation library (validation-helpers) ===================== -/

/-- A calendar date as the triple of numbers the JS `Date` getters return
(`getFullYear`, month 1-12, `getDate`); time zones are abstracted away. -/
structure SimpleDate where
  year : Int
  month : Int
  day : Int
  deriving DecidableEq, Repr

/-- `calculateAge` from `validation-helpers.ts`, with the implicit `new Date()`
("today") made an explicit parameter:
`age = today.year - birth.year`, decremented when the month difference is
negative, or zero with today's day before the birth day. -/
def calculateAge (birth today : SimpleDate) : Int :=
  let age := today.year - birth.year
  let monthDiff := today.month - birth.month
  if monthDiff < 0 ∨ (monthDiff = 0 ∧ today.day < birth.day) then age - 1 else age

/-- Modelled from the spec: "whole-years difference accounting for month/day
not yet reached this year (i.e., floor, not calendar-year subtraction)" —
the floor of the elapsed years, i.e. year difference minus one exactly when
today's (month, day) is lexicographically before the birth (month, day). -/
def floorElapsedYears (birth today : SimpleDate) : Int :=
  today.year - birth.year -
    (if today.month < birth.month ∨ (today.month = birth.month ∧ today.day < birth.day)
     then 1 else 0)

/-- `validateIdentification` from `validation-helpers.ts`:
falsy/whitespace-only input fails, otherwise the regex `^[A-Za-z0-9]{6,}$`. -/
def validateIdentification (identification : String) : Bool :=
  if identification = "" ∨ (jsTrim identification).length = 0 then
    false
  else
    identification.length ≥ 6 && identification.toList.all (fun c => c.isAlphanum)

/-- Helper for the email regex: the list has a `'.'` at a position that is
neither the first nor the last character. -/
def hasInnerDot (l : List Char) : Bool :=
  (l.drop 1).dropLast.contains '.'

/-- `validateEmail` from `validation-helpers.ts`: the regex
`^[^\s@]+@[^\s@]+\.[^\s@]+$`.  Equivalently: the string is non-empty, has no
whitespace, splits on `@` into exactly two non-empty parts, and the domain
part contains a `'.'` with at least one character on each side (the character
class `[^\s@]` admits further dots on either side of the matched one). -/
def validateEmail (email : String) : Bool :=
  if email = "" then false
  else
    match splitOnChar '@' email with
    | [localPart, domain] =>
      localPart ≠ "" && domain ≠ "" &&
      (email.toList.all fun c => ¬ c.isWhitespace) &&
      hasInnerDot domain.toList
    | _ => false

/-- `validatePhone` from `validation-helpers.ts`: the regex
`^[\d\s\+\-\(\)]{7,}$` — at least 7 characters, all of them digits,
whitespace, `+`, `-`, `(` or `)`. -/
def validatePhone (phone : String) : Bool :=
  if phone = "" then false
  else
    phone.length ≥ 7 &&
    phone.toList.all fun c =>
      c.isDigit || c.isWhitespace || c = '+' || c = '-' || c = '(' || c = ')'

/- ===================== extractProductId (validation-helpers) ===================== -/

/-- A JS field value as relevant to `extractProductId`: a number or a string. -/
inductive JsVal where
  | num (n : Int)
  | str (s : String)
  deriving DecidableEq, Repr

/-- A JS number result that may be `NaN` (what `parseInt` yields on garbage). -/
inductive JsNum where
  | int (n : Int)
  | nan
  deriving DecidableEq, Repr

/-- JS truthiness of an optional field value: absent, `0` and `""` are falsy. -/
def valTruthy : Option JsVal → Bool
  | some (.num n) => n ≠ 0
  | some (.str s) => s ≠ ""
  | none => false

/-- JS `parseInt(s, 10)`: skip leading whitespace, optional sign, then the
maximal run of leading decimal digits; `NaN` when there is no digit. -/
def parseInt10 (s : String) : JsNum :=
  let l := s.toList.dropWhile Char.isWhitespace
  let core : List Char → JsNum := fun cs =>
    let ds := cs.takeWhile Char.isDigit
    if ds.isEmpty then .nan else .int (digitsToNat ds)
  match l with
  | '-' :: rest =>
    let ds := rest.takeWhile Char.isDigit
    if ds.isEmpty then .nan else .int (-(digitsToNat ds : Int))
  | '+' :: rest => core rest
  | _ => core l

/-- `typeof x === 'number' ? x : parseInt(x, 10)` from `extractProductId`. -/
def coerceId : JsVal → JsNum
  | .num n => .int n
  | .str s => parseInt10 s

/-- The response shape `extractProductId` probes, with the four looked-up
fields flattened (`dataId` stands for `response.data?.id`, etc.). -/
structure ProdResp where
  message : Option String := none
  dataId : Option JsVal := none
  dataProductId : Option JsVal := none
  id : Option JsVal := none
  productId : Option JsVal := none
  status : Option Nat := none
  deriving DecidableEq, Repr

/-- `extractProductId` from `validation-helpers.ts`: falsy response gives
`undefined`; otherwise the first truthy field among `data.id`,
`data.product_id`, `id`, `product_id`, coerced to a number; `undefined`
when none is truthy. -/
def extractProductId : Option ProdResp → Option JsNum
  | none => none
  | some r =>
    if valTruthy r.dataId then some (coerceId (r.dataId.getD (.num 0)))
    else if valTruthy r.dataProductId then some (coerceId (r.dataProductId.getD (.num 0)))
    else if valTruthy r.id then some (coerceId (r.id.getD (.num 0)))
    else if valTruthy r.productId then some (coerceId (r.productId.getD (.num 0)))
    else none

/- ===================== API transport error extraction (api-helper) ===================== -/

/-- The decoded JSON body of an error response, as probed by
`extractErrorMessage` in `api-helper.ts`: either an object (with the three
optional string fields the function reads via optional chaining), a bare
JSON string, or some other JSON value (null, number, array, ...). -/
inductive ErrJson where
  | jobj (metaMessage message error : Option String)
  | jstr (s : String)
  | jother
  deriving DecidableEq, Repr

/-- `extractErrorMessage` from `api-helper.ts`: priority
`meta.message` → `message` → `error` → the body itself when it is a string →
the HTTP `statusText`.  Each field test is JS truthiness (absent or `""`
falls through). -/
def extractErrorMessage (errorJson : ErrJson) (statusText : String) : String :=
  match errorJson with
  | .jobj metaMessage message error =>
    if strTruthy metaMessage then metaMessage.getD ""
    else if strTruthy message then message.getD ""
    else if strTruthy error then error.getD ""
    else statusText
  | .jstr s => s
  | .jother => statusText

/-- The error-message computation of `apiCall`'s non-ok branch in
`api-helper.ts`: with an empty response text the message stays
`statusText`; with text that parses as JSON, `extractErrorMessage`; with
text that fails to parse, the raw text itself.  `JSON.parse` is modelled by
the `parsed` argument (`none` = parse failure). -/
def apiCallErrorMessage (responseText : String) (parsed : Option ErrJson)
    (statusText : String) : String :=
  if responseText = "" then statusText
  else
    match parsed with
    | some j => extractErrorMessage j statusText
    | none => responseText

/- ===================== Error mapper (error-mapper.ts) ===================== -/

/-- `getErrorMessageForEndpoint` from `error-mapper.ts`: the per-endpoint /
per-status table, after stripping a query string from the endpoint. -/
def getErrorMessageForEndpoint (endpoint : String) (statusCode : Nat) : Option String :=
  let normalizedEndpoint := (splitOnChar '?' endpoint).headD ""
  if normalizedEndpoint = "/user" then
    if statusCode = 400 then some "Datos del paciente inválidos. Verifica que todos los campos requeridos sean correctos."
    else if statusCode = 401 then some "No autorizado para realizar esta operación. Verifica tu token de autenticación."
    else if statusCode = 500 then some "No se pudo crear al tercero. Verifica que todos los datos sean correctos y que el paciente no exista previamente."
    else none
  else if normalizedEndpoint = "/product" then
    if statusCode = 400 then some "Datos del producto inválidos. Verifica que todos los campos requeridos sean correctos."
    else if statusCode = 401 then some "No autorizado para crear productos. Verifica tu token de autenticación."
    else if statusCode = 500 then some "No se pudo crear el producto. Verifica que todos los datos sean correctos."
    else none
  else if normalizedEndpoint = "/product/variant" then
    if statusCode = 400 then some "Datos de la variante inválidos. Verifica que el ID del producto y el código sean correctos."
    else if statusCode = 401 then some "No autorizado para crear variantes. Verifica tu token de autenticación."
    else if statusCode = 500 then some "No se pudo crear la variante del producto."
    else none
  else if normalizedEndpoint = "/test-type" then
    if statusCode = 400 then some "Datos del tipo de prueba inválidos. Verifica que el nombre, código y product_id sean correctos."
    else if statusCode = 401 then some "No autorizado para crear tipos de prueba. Verifica tu token de autenticación."
    else if statusCode = 500 then some "No se pudo crear el tipo de prueba. Verifica que el product_id exista en el sistema."
    else none
  else if normalizedEndpoint = "/automatized" then
    if statusCode = 400 then some "Nombre de tabla inválido o no especificado."
    else if statusCode = 401 then some "No autorizado para acceder a esta tabla. Verifica tu token de autenticación."
    else if statusCode = 500 then some "Error al obtener datos de la tabla. Verifica que el nombre de la tabla sea correcto."
    else none
  else if normalizedEndpoint = "/test-products" then
    if statusCode = 400 then some "Error en la solicitud de productos."
    else if statusCode = 401 then some "No autorizado para listar productos. Verifica tu token de autenticación."
    else if statusCode = 500 then some "Error al obtener la lista de productos."
    else none
  else none

/-- `getGenericErrorMessage` from `error-mapper.ts`. -/
def getGenericErrorMessage (statusCode : Nat) : String :=
  if statusCode = 400 then "Solicitud inválida: los datos proporcionados no son correctos"
  else if statusCode = 401 then "No autorizado: token de autenticación inválido o faltante"
  else if statusCode = 403 then "Prohibido: no tienes permisos para realizar esta operación"
  else if statusCode = 404 then "No encontrado: el recurso solicitado no existe"
  else if statusCode = 500 then "Error del servidor: ocurrió un error interno"
  else if statusCode = 502 then "Bad Gateway: el servidor no pudo procesar la solicitud"
  else if statusCode = 503 then "Servicio no disponible: el servidor está temporalmente no disponible"
  else s!"Error HTTP {statusCode}: ocurrió un error desconocido"

/-- `getCombinedErrorMessage` from `error-mapper.ts`: API message (when
truthy) → per-endpoint message → generic message. -/
def getCombinedErrorMessage (endpoint : String) (statusCode : Nat)
    (apiMessage : Option String) : String :=
  match apiMessage with
  | some m =>
    if m ≠ "" then m
    else
      match getErrorMessageForEndpoint endpoint statusCode with
      | some em => em
      | none => getGenericErrorMessage statusCode
  | none =>
    match getErrorMessageForEndpoint endpoint statusCode with
    | some em => em
    | none => getGenericErrorMessage statusCode

/- ===================== Error classifier (error-helpers.ts) ===================== -/

/-- The regex scan `errorMessage.match(/\((\d+)\)/)` of
`extractUserFriendlyMessage`: the first `(` that is followed by a non-empty
maximal digit run and then `)` yields that number. -/
def firstParenNum : List Char → Option Nat
  | [] => none
  | '(' :: rest =>
    let ds := rest.takeWhile Char.isDigit
    if ds.isEmpty ∨ (rest.drop ds.length).head? ≠ some ')' then firstParenNum rest
    else some (digitsToNat ds)
  | _ :: rest => firstParenNum rest

/-- `extractUserFriendlyMessage` from `error-helpers.ts`, on the already
computed `errorMessage` string (`error?.message || String(error || ...)`):
a truthy message not containing `"INTERNAL SERVER ERROR"` is returned as is;
otherwise, with an endpoint at hand, a status code is scraped from the
message (default 500) and `getCombinedErrorMessage` is used; otherwise the
message is returned unchanged. -/
def extractUserFriendlyMessage (errorMessage : String) (endpoint : Option String) : String :=
  if errorMessage ≠ "" ∧ containsSub errorMessage "INTERNAL SERVER ERROR" = false then
    errorMessage
  else
    match endpoint with
    | some ep =>
      let statusCode := (firstParenNum errorMessage.toList).getD 500
      getCombinedErrorMessage ep statusCode (some errorMessage)
    | none => errorMessage

/-- The non-recoverable pattern list of `isRecoverableError`. -/
def nonRecoverablePatterns : List String :=
  ["ya existe", "menor de edad", "fecha inválida", "género", "gender",
   "invalid", "no autorizado", "unauthorized"]

/-- The recoverable pattern list of `isRecoverableError`. -/
def recoverablePatterns : List String :=
  ["error del servidor", "server error", "timeout", "network", "temporalmente"]

/-- `isRecoverableError` from `error-helpers.ts`: lowercase the message;
any non-recoverable pattern match forces `false`; otherwise the result is
whether any recoverable pattern matches. -/
def isRecoverableError (error : String) : Bool :=
  let errorLower := jsToLower error
  if nonRecoverablePatterns.any (fun p => containsSub errorLower p) then false
  else recoverablePatterns.any (fun p => containsSub errorLower p)

/- ===================== Patient registration workflow ===================== -/

/-- The workflow input (`inputSchema` of `patient-registration-workflow.ts`);
`gender` is kept as a plain string so the step's own check is meaningful. -/
structure PatientInput where
  name : String
  lastname : String
  identification : String
  dob : String
  gender : String
  email : Option String := none
  phone : Option String := none
  deriving DecidableEq, Repr

/-- The regex `^\d{4}-\d{2}-\d{2}$` of the validate step. -/
def dateRegexOk (s : String) : Bool :=
  match s.toList with
  | [a, b, c, d, '-', e, f, '-', g, h] =>
    a.isDigit && b.isDigit && c.isDigit && d.isDigit &&
    e.isDigit && f.isDigit && g.isDigit && h.isDigit
  | _ => false

/-- `new Date(dob)` on a string already matching `YYYY-MM-DD`, at the
(year, month, day) level of abstraction. -/
def parseDob (s : String) : SimpleDate :=
  match s.toList with
  | [a, b, c, d, _, e, f, _, g, h] =>
    ⟨(digitsToNat [a, b, c, d] : Int), (digitsToNat [e, f] : Int), (digitsToNat [g, h] : Int)⟩
  | _ => ⟨0, 0, 0⟩

/-- Output of the validate step: the input plus the computed age. -/
structure ValidatedPatient where
  input : PatientInput
  age : Int
  deriving DecidableEq, Repr

/-- The `validate-patient-data` step of `patient-registration-workflow.ts`,
with "today" explicit.  Checks run in source order and the step throws
(models as `Except.error`) the source's message for the first violation. -/
def validatePatientData (now : SimpleDate) (i : PatientInput) : Except String ValidatedPatient :=
  if ¬ dateRegexOk i.dob then
    .error "La fecha ingresada es inválida. Por favor verifique"
  else
    let age := calculateAge (parseDob i.dob) now
    if age < 18 then .error "El usuario no puede ser menor de edad"
    else if i.gender ≠ "m" ∧ i.gender ≠ "f" then
      .error "Gender must be exactly \"m\" or \"f\""
    else if ¬ validateIdentification i.identification then
      .error "Invalid identification format"
    else if strTruthy i.email ∧ ¬ validateEmail (i.email.getD "") then
      .error "Invalid email format"
    else if strTruthy i.phone ∧ ¬ validatePhone (i.phone.getD "") then
      .error "Invalid phone format"
    else .ok ⟨i, age⟩

/-- The structured error `apiCall` throws (`ApiError`): HTTP status code and
the extracted message (the fields the workflows actually read). -/
structure ApiErr where
  statusCode : Nat
  message : String
  deriving DecidableEq, Repr

/-- The `data` object of a `/user` response, with the id fields the
confirm step probes. -/
structure UserData where
  id : Option Int := none
  ids : Option Int := none
  deriving DecidableEq, Repr

/-- Decoded body of a `/user` call as typed in the workflow:
`{ message?, data?, status? }` plus the top-level `id` the confirm step
also probes. -/
structure UserResp where
  message : Option String := none
  data : Option UserData := none
  status : Option Nat := none
  id : Option Int := none
  deriving DecidableEq, Repr

/-- One request handed to the transport: endpoint, HTTP method, and the
serialized key/value fields (query parameters for GET, form fields
otherwise). -/
structure ApiRequest where
  endpoint : String
  method : String
  fields : List (String × String)
  deriving DecidableEq, Repr

/-- JS truthiness of an optional numeric field. -/
def intTruthy : Option Int → Bool
  | some n => n ≠ 0
  | none => false

/-- JS `response.status || 200`: an absent (or 0) status defaults to 200. -/
def statusOr200 : Option Nat → Nat
  | some n => if n ≠ 0 then n else 200
  | none => 200

/-- The `check-patient-exists` step, as a function of the read call's
outcome.  The try body throws `"El tercero ya existe"` when the response is
truthy with truthy `data` and `status === 200`; the catch rethrows
`"ya existe"` errors, downgrades `"500"` and `"no existe"` errors to
"patient absent", and rethrows anything else. -/
def checkPatientExists (readResult : Except ApiErr UserResp) : Except String Bool :=
  let tryBody : Except String Bool :=
    match readResult with
    | .error e => .error e.message
    | .ok r =>
      if r.data.isSome ∧ r.status = some 200 then .error "El tercero ya existe"
      else .ok false
  match tryBody with
  | .ok v => .ok v
  | .error m =>
    if containsSub m "ya existe" then .error m
    else if containsSub m "500" then .ok false
    else if containsSub m "no existe" then .ok false
    else .error m

/-- The form body the `create-patient` workflow step sends: the validated
fields with `procedense` hardcoded to `"768"` and falsy email/phone
defaulted to `""`. -/
def createPatientRequestBody (i : PatientInput) : List (String × String) :=
  [("name", i.name), ("lastname", i.lastname), ("identification", i.identification),
   ("dob", i.dob), ("gender", i.gender), ("procedense", "768"),
   ("email", strOr i.email ""), ("phone", strOr i.phone "")]

/-- The `create-patient` step as a function of the create call's outcome:
on success it pairs the response with `response.status || 200`; on error it
maps known substrings of the thrown message to the canonical domain errors
and rethrows anything else. -/
def createPatientStep (callResult : Except ApiErr UserResp) : Except String (UserResp × Nat) :=
  match callResult with
  | .ok r => .ok (r, statusOr200 r.status)
  | .error e =>
    if containsSub e.message "fecha ingresada es inválida" then
      .error "La fecha ingresada es inválida. Por favor verifique"
    else if containsSub e.message "menor de edad" then
      .error "El usuario no puede ser menor de edad"
    else if containsSub e.message "ya existe" then
      .error "El tercero ya existe"
    else if containsSub e.message "500" then
      .error "No se pudo crear al tercero"
    else .error e.message

/-- The consolidated result of the patient workflow (`confirm` step output). -/
structure PatientResult where
  success : Bool
  patientId : Option String
  message : String
  payload : Sum UserData UserResp
  deriving DecidableEq, Repr

/-- The `confirm-patient-creation` step: requires status 200, extracts the
id by probing `data.id`, `data.ids`, then top-level `id` (JS truthiness),
stringifies it, and defaults the message. -/
def confirmPatientCreation (response : UserResp) (status : Nat) : Except String PatientResult :=
  if status ≠ 200 then .error "Failed to create patient: Invalid response status"
  else
    let dataId := response.data.bind (·.id)
    let dataIds := response.data.bind (·.ids)
    let patientId : Option String :=
      if intTruthy dataId then some (toString (dataId.getD 0))
      else if intTruthy dataIds then some (toString (dataIds.getD 0))
      else if intTruthy response.id then some (toString (response.id.getD 0))
      else none
    let message := strOr response.message "Tercero creado exitosamente"
    let payload : Sum UserData UserResp :=
      match response.data with
      | some d => .inl d
      | none => .inr response
    .ok ⟨true, patientId, message, payload⟩

/-- The GET `/user` existence-check request for a given identification. -/
def readUserRequest (identification : String) : ApiRequest :=
  ⟨"/user", "GET", [("identification", identification)]⟩

/-- The POST `/user` create request for a validated patient. -/
def createUserRequest (i : PatientInput) : ApiRequest :=
  ⟨"/user", "POST", createPatientRequestBody i⟩

/-- The four-step patient pipeline (`.then` chain of
`patient-registration-workflow.ts`): strictly sequential, aborting on the
first step failure.  The transport is an oracle; the second component
records the requests actually issued, in order. -/
def runPatientWorkflow (now : SimpleDate) (oracle : ApiRequest → Except ApiErr UserResp)
    (i : PatientInput) : Except String PatientResult × List ApiRequest :=
  match validatePatientData now i with
  | .error m => (.error m, [])
  | .ok _v =>
    let rq := readUserRequest i.identification
    match checkPatientExists (oracle rq) with
    | .error m => (.error m, [rq])
    | .ok _ =>
      let cq := createUserRequest i
      match createPatientStep (oracle cq) with
      | .error m => (.error m, [rq, cq])
      | .ok (resp, status) =>
        match confirmPatientCreation resp status with
        | .error m => (.error m, [rq, cq])
        | .ok res => (.ok res, [rq, cq])

/-- The input context of `createPatientTool` in `patient-tools.ts`, which
(unlike the workflow) does carry a caller-supplied `procedense`. -/
structure CreatePatientContext where
  name : String
  lastname : String
  identification : String
  dob : String
  gender : String
  procedense : String
  email : Option String := none
  phone : Option String := none
  deriving DecidableEq, Repr

/-- The body built by `createPatientTool.execute`:
`{ ...context, procedense: '768' }` — the spread of the context with the
`procedense` field overridden. -/
def createPatientToolBody (context : CreatePatientContext) : CreatePatientContext :=
  { context with procedense := "768" }

/- ===================== Product-with-variant workflow ===================== -/

/-- Workflow input (`inputSchema` of `product-with-variant-workflow.ts`). -/
structure ProductInput where
  name : String
  type : String
  list_price : Rat
  category : String
  default_uom : Option Int := none
  is_medicament : Option Bool := none
  is_medical_supply : Option Bool := none
  is_vaccine : Option Bool := none
  is_bed : Option Bool := none
  is_insurance_plan : Option Bool := none
  is_prothesis : Option Bool := none
  variant_code : Option String := none
  deriving DecidableEq, Repr

/-- Output of the product validate step: the input with `default_uom`
forced to 1. -/
structure ProductValidated where
  name : String
  type : String
  list_price : Rat
  category : String
  default_uom : Int
  is_medicament : Option Bool := none
  is_medical_supply : Option Bool := none
  is_vaccine : Option Bool := none
  is_bed : Option Bool := none
  is_insurance_plan : Option Bool := none
  is_prothesis : Option Bool := none
  variant_code : Option String := none
  deriving DecidableEq, Repr

/-- The `validate-product-data` step: non-empty name, type among the three
product types, category among "1".."6", price positive; `default_uom`
silently forced to 1. -/
def validateProductData (i : ProductInput) : Except String ProductValidated :=
  if i.name = "" ∨ (jsTrim i.name).length = 0 then
    .error "Product name cannot be empty"
  else if ¬ (i.type = "goods" ∨ i.type = "assets" ∨ i.type = "service") then
    .error "Product type must be \"goods\", \"assets\", or \"service\""
  else if ¬ (i.category = "1" ∨ i.category = "2" ∨ i.category = "3" ∨
             i.category = "4" ∨ i.category = "5" ∨ i.category = "6") then
    .error "Category must be between 1 and 6"
  else if i.list_price ≤ 0 then
    .error "Product price must be greater than 0"
  else
    .ok ⟨i.name, i.type, i.list_price, i.category, 1,
         i.is_medicament, i.is_medical_supply, i.is_vaccine, i.is_bed,
         i.is_insurance_plan, i.is_prothesis, i.variant_code⟩

/-- JS truthiness of an optional boolean flag. -/
def boolTruthy : Option Bool → Bool
  | some b => b
  | none => false

/-- The optional flag bundle the product steps thread through. -/
structure ProdFlags where
  is_medicament : Option Bool := none
  is_medical_supply : Option Bool := none
  is_vaccine : Option Bool := none
  is_bed : Option Bool := none
  is_insurance_plan : Option Bool := none
  is_prothesis : Option Bool := none
  deriving DecidableEq, Repr

/-- The POST `/product` form body: the base fields plus only the flags that
are explicitly true (false/absent flags are omitted, not sent as false). -/
def createProductRequestBody (v : ProductValidated) : List (String × String) :=
  [("name", v.name), ("type", v.type), ("default_uom", toString v.default_uom),
   ("list_price", toString v.list_price), ("category", v.category)] ++
  (if boolTruthy v.is_medicament then [("is_medicament", "true")] else []) ++
  (if boolTruthy v.is_medical_supply then [("is_medical_supply", "true")] else []) ++
  (if boolTruthy v.is_vaccine then [("is_vaccine", "true")] else []) ++
  (if boolTruthy v.is_bed then [("is_bed", "true")] else []) ++
  (if boolTruthy v.is_insurance_plan then [("is_insurance_plan", "true")] else []) ++
  (if boolTruthy v.is_prothesis then [("is_prothesis", "true")] else [])

/-- Output of the `create-product` step. -/
structure Step2Out where
  response : ProdResp
  productId : Option JsNum
  status : Nat
  warnings : Option (List String)
  variant_code : Option String
  flags : ProdFlags
  deriving DecidableEq, Repr

/-- `message?.includes(sub)` on an optional string. -/
def optContains (m : Option String) (sub : String) : Bool :=
  match m with
  | some s => containsSub s sub
  | none => false

/-- The 207 warning chosen by the `create-product` step: a specific
template-category warning, else a specific price warning, else the raw
message (or a generic default when the message is falsy). -/
def productWarning207 (message : Option String) : String :=
  if optContains message "template-category" then
    "Producto creado exitosamente pero ocurrió un problema al crear la relación template-category"
  else if optContains message "precio" then
    "Producto creado exitosamente pero ocurrió un problema al agregar el precio en su tabla relacional"
  else strOr message "Producto creado con advertencias"

/-- The `create-product` step as a function of the POST `/product` call
outcome: on success, `status = response.status || 200`, product id via
`extractProductId`, and exactly one 207 warning when `status === 207`;
on error, `"400"`/`"500"` substrings are re-wrapped, anything else is
rethrown. -/
def createProductStep (v : ProductValidated) (callResult : Except ApiErr ProdResp) :
    Except String Step2Out :=
  match callResult with
  | .ok r =>
    let status := statusOr200 r.status
    let productId := extractProductId (some r)
    let warnings : List String := if status = 207 then [productWarning207 r.message] else []
    .ok { response := r, productId, status,
          warnings := if warnings.length > 0 then some warnings else none,
          variant_code := v.variant_code,
          flags := ⟨v.is_medicament, v.is_medical_supply, v.is_vaccine, v.is_bed,
                    v.is_insurance_plan, v.is_prothesis⟩ }
  | .error e =>
    if containsSub e.message "400" then .error ("Bad Request: " ++ e.message)
    else if containsSub e.message "500" then .error "Internal Server Error: Error al crear el producto"
    else .error e.message

/-- JS truthiness of the optional numeric product id (`NaN` is falsy). -/
def jsNumOptTruthy : Option JsNum → Bool
  | some (.int n) => n ≠ 0
  | some .nan => false
  | none => false

/-- Output of the `create-variant` step. -/
structure Step3Out where
  variantCreated : Bool
  variantResponse : Option ProdResp
  variantError : Option String
  productId : Option JsNum
  status : Nat
  warnings : Option (List String)
  flags : ProdFlags
  variant_code : Option String
  deriving DecidableEq, Repr

/-- The `create-variant` step as a function of the POST `/product/variant`
call outcome (the call is only issued on the third branch): skip when the
variant code is falsy or whitespace; report a guard error when the product
id is falsy; otherwise a thrown call error is downgraded — never rethrown —
to one appended warning plus a recorded `variantError`. -/
def createVariantStep (i : Step2Out) (variantCall : Except ApiErr ProdResp) : Step3Out :=
  if ¬ strTruthy i.variant_code ∨ (jsTrim (i.variant_code.getD "")).length = 0 then
    { variantCreated := false, variantResponse := none, variantError := none,
      productId := i.productId, status := i.status, warnings := i.warnings,
      flags := i.flags, variant_code := i.variant_code }
  else if ¬ jsNumOptTruthy i.productId then
    { variantCreated := false, variantResponse := none,
      variantError := some "Cannot create variant: product ID not available",
      productId := i.productId, status := i.status, warnings := i.warnings,
      flags := i.flags, variant_code := i.variant_code }
  else
    match variantCall with
    | .ok r =>
      { variantCreated := true, variantResponse := some r, variantError := none,
        productId := i.productId, status := i.status, warnings := i.warnings,
        flags := i.flags, variant_code := i.variant_code }
    | .error e =>
      let pushed := (i.warnings.getD []) ++
        ["Error al crear la variante: " ++ (if e.message ≠ "" then e.message else "Error desconocido")]
      { variantCreated := false, variantResponse := none,
        variantError := some (if e.message ≠ "" then e.message else "Error desconocido al crear variante"),
        productId := i.productId, status := i.status, warnings := some pushed,
        flags := i.flags, variant_code := i.variant_code }

/-- The consolidated result of the product workflow. -/
structure ProductResult where
  success : Bool
  productId : JsNum
  variantId : Option JsNum
  message : String
  warnings : Option (List String)
  productData : JsNum × Nat
  variantData : Option ProdResp
  deriving DecidableEq, Repr

/-- The `consolidate-results` step: fails unless the product id is truthy
and the status is 200; extracts the variant id from the variant response;
builds the message; and appends one more `"Variante: ..."` warning when a
`variantError` was recorded without a created variant. -/
def consolidateResults (i : Step3Out) : Except String ProductResult :=
  if ¬ jsNumOptTruthy i.productId ∨ i.status ≠ 200 then .error "Product creation failed"
  else
    let pid := i.productId.getD (.int 0)
    let variantId : Option JsNum :=
      if i.variantCreated ∧ i.variantResponse.isSome then extractProductId i.variantResponse
      else none
    let message :=
      "Producto creado exitosamente" ++
      (if i.variantCreated ∧ jsNumOptTruthy variantId then " con variante"
       else if strTruthy i.variant_code ∧ ¬ i.variantCreated then " (variante no pudo ser creada)"
       else "")
    let baseWarnings := i.warnings.getD []
    let allWarnings :=
      if strTruthy i.variantError ∧ ¬ i.variantCreated then
        baseWarnings ++ ["Variante: " ++ i.variantError.getD ""]
      else baseWarnings
    .ok { success := true, productId := pid, variantId, message,
          warnings := if allWarnings.length > 0 then some allWarnings else none,
          productData := (pid, i.status),
          variantData := if i.variantCreated then i.variantResponse else none }

/-- The raw HTTP body of a product-creation response: JSON that decodes to
a `ProdResp`, or text that fails to decode. -/
inductive HttpBody where
  | json (j : ProdResp)
  | notJson (raw : String)
  deriving DecidableEq, Repr

/-- The HTTP-207 branch of `apiCall` in `api-helper.ts`: the body is decoded
as JSON best-effort (`{}` on decode failure) and returned as a successful
result — no error is raised. -/
def apiCall207Result (body : HttpBody) : ProdResp :=
  match body with
  | .json j => j
  | .notJson _ => {}

/- ===================== Shared lemmas ===================== -/

/-- A string contains every suffix obtained by appending it to a prefix. -/
theorem containsSub_append_right (p m : String) : containsSub (p ++ m) m = true := by
  unfold containsSub
  apply List.any_eq_true.mpr
  refine ⟨p.toList.length, ?_, ?_⟩
  · apply List.mem_range.mpr
    have h : (p ++ m).toList = p.toList ++ m.toList := by
      show (p ++ m).data = p.data ++ m.data
      exact String.data_append p m
    rw [h, List.length_append]
    omega
  · have h : (p ++ m).toList = p.toList ++ m.toList := by
      show (p ++ m).data = p.data ++ m.data
      exact String.data_append p m
    rw [h, List.drop_left]
    simp [List.isPrefixOf_iff_prefix]

/- ===================== Claim theorems ===================== -/

/-- C7: `calculateAge` computes, for every date of birth and every "now",
the floor of the elapsed whole years (year difference, decremented exactly
when the birthday's month/day has not yet been reached); in particular a
birth date 1990-03-15 evaluated on 2024-03-14 yields 33, not 34. -/
theorem calculateAge_floor_of_elapsed_years :
    (∀ birth today : SimpleDate, calculateAge birth today = floorElapsedYears birth today) ∧
    calculateAge ⟨1990, 3, 15⟩ ⟨2024, 3, 14⟩ = 33 := by
  constructor
  · intro b t
    simp only [calculateAge, floorElapsedYears]
    split_ifs <;> omega
  · decide

/-- C10: `extractProductId` treats an identifier field whose value is the
number 0 as absent: for each of the four looked-up fields, a `0` value makes
the lookup behave exactly as if the field were missing (falling through to
the later fields), and with all four fields present but 0 the result is the
not-found value `none`. -/
theorem extractProductId_zero_treated_as_absent :
    (∀ r : ProdResp, r.dataId = some (.num 0) →
        extractProductId (some r) = extractProductId (some { r with dataId := none })) ∧
    (∀ r : ProdResp, r.dataProductId = some (.num 0) →
        extractProductId (some r) = extractProductId (some { r with dataProductId := none })) ∧
    (∀ r : ProdResp, r.id = some (.num 0) →
        extractProductId (some r) = extractProductId (some { r with id := none })) ∧
    (∀ r : ProdResp, r.productId = some (.num 0) →
        extractProductId (some r) = extractProductId (some { r with productId := none })) ∧
    extractProductId (some { dataId := some (.num 0), dataProductId := some (.num 0),
                             id := some (.num 0), productId := some (.num 0) }) = none := by
  refine ⟨?_, ?_, ?_, ?_, by decide⟩ <;>
    (intro r h; simp [extractProductId, h, valTruthy])

/-- Witness for C10 at a concrete response: `data.id = 0` with
`data.product_id = 7` behaves as if `data.id` were absent. -/
theorem extractProductId_zero_treated_as_absent_witness :
    extractProductId (some { dataId := some (.num 0), dataProductId := some (.num 7) }) =
      extractProductId (some { ({ dataId := some (.num 0), dataProductId := some (.num 7) } : ProdResp)
                               with dataId := none }) :=
  extractProductId_zero_treated_as_absent.1
    { dataId := some (.num 0), dataProductId := some (.num 7) } rfl

/-- C9: recoverability classification — a message matching any
non-recoverable pattern (already-exists / underage / invalid-date /
invalid-gender / unauthorized family) is classified not recoverable, taking
precedence over everything; otherwise a match of any recoverable pattern
(server-error / timeout / network / temporarily family) gives recoverable;
otherwise the message is not automatically retryable (false). -/
theorem isRecoverableError_classification :
    ∀ msg : String,
      (nonRecoverablePatterns.any (fun p => containsSub (jsToLower msg) p) = true →
        isRecoverableError msg = false) ∧
      (nonRecoverablePatterns.any (fun p => containsSub (jsToLower msg) p) = false →
        recoverablePatterns.any (fun p => containsSub (jsToLower msg) p) = true →
        isRecoverableError msg = true) ∧
      (nonRecoverablePatterns.any (fun p => containsSub (jsToLower msg) p) = false →
        recoverablePatterns.any (fun p => containsSub (jsToLower msg) p) = false →
        isRecoverableError msg = false) := by
  intro msg
  refine ⟨fun h => ?_, fun h1 h2 => ?_, fun h1 h2 => ?_⟩ <;>
    simp [isRecoverableError, *]

/-- Witness for C9 at concrete messages: an already-exists message is not
recoverable, a timeout message is recoverable. -/
theorem isRecoverableError_classification_witness :
    isRecoverableError "El tercero ya existe" = false ∧
    isRecoverableError "timeout al conectar" = true :=
  ⟨(isRecoverableError_classification "El tercero ya existe").1 (by decide),
   (isRecoverableError_classification "timeout al conectar").2.1 (by decide) (by decide)⟩

/-- C2: error-message extraction and surfacing — for every error body that
is the `{data, meta}` envelope with a non-empty `meta.message`, the
transport extracts exactly `meta.message` (regardless of the HTTP status
phrase), and the user-facing layer surfaces that extracted message
unchanged, never the generic status phrase; the extraction priority is
`meta.message`, then `message`, then `error`, then the raw body text (a
JSON string body, or an unparseable body), then the HTTP status phrase.
The conjuncts instantiate the claim's example envelope at HTTP 500. -/
theorem extractErrorMessage_meta_priority :
    (∀ (metaMsg : String) (message error statusText : String),
        metaMsg ≠ "" →
        extractErrorMessage (.jobj (some metaMsg) (some message) (some error)) statusText
          = metaMsg) ∧
    (∀ (mm : Option String) (message : String) (error : Option String) (statusText : String),
        strTruthy mm = false → message ≠ "" →
        extractErrorMessage (.jobj mm (some message) error) statusText = message) ∧
    (∀ (mm m : Option String) (error statusText : String),
        strTruthy mm = false → strTruthy m = false → error ≠ "" →
        extractErrorMessage (.jobj mm m (some error)) statusText = error) ∧
    (∀ (s statusText : String), extractErrorMessage (.jstr s) statusText = s) ∧
    (∀ (raw statusText : String), raw ≠ "" →
        apiCallErrorMessage raw none statusText = raw) ∧
    (∀ (mm m e : Option String) (statusText : String),
        strTruthy mm = false → strTruthy m = false → strTruthy e = false →
        extractErrorMessage (.jobj mm m e) statusText = statusText) ∧
    (∀ (msg : String) (endpoint : Option String), msg ≠ "" →
        extractUserFriendlyMessage msg endpoint = msg) ∧
    (extractErrorMessage (.jobj (some "No se pudo crear al tercero") none none)
        "Internal Server Error" = "No se pudo crear al tercero" ∧
     extractUserFriendlyMessage "No se pudo crear al tercero" (some "/user")
        = "No se pudo crear al tercero") := by
  refine ⟨?_, ?_, ?_, ?_, ?_, ?_, ?_, by decide⟩
  · intro mm m e st h
    have hs : strTruthy (some mm) = true := by simp [strTruthy, h]
    simp [extractErrorMessage, hs]
  · intro mm m e st h1 h2
    have hs : strTruthy (some m) = true := by simp [strTruthy, h2]
    simp [extractErrorMessage, h1, hs]
  · intro mm m e st h1 h2 h3
    have hs : strTruthy (some e) = true := by simp [strTruthy, h3]
    simp [extractErrorMessage, h1, h2, hs]
  · intro s st; rfl
  · intro raw st h; simp [apiCallErrorMessage, h]
  · intro mm m e st h1 h2 h3; simp [extractErrorMessage, h1, h2, h3]
  · intro msg ep h
    by_cases hc : containsSub msg "INTERNAL SERVER ERROR" = false
    · simp [extractUserFriendlyMessage, h, hc]
    · cases ep with
      | none => simp [extractUserFriendlyMessage, hc]
      | some e =>
        simp only [extractUserFriendlyMessage, hc, and_false, if_false]
        simp [getCombinedErrorMessage, h]

/-- Witness for C2: the claim's example — envelope with
`meta.message = "No se pudo crear al tercero"` alongside other candidate
fields, extracted at status phrase "Internal Server Error". -/
theorem extractErrorMessage_meta_priority_witness :
    extractErrorMessage (.jobj (some "No se pudo crear al tercero") (some "other")
        (some "err")) "Internal Server Error" = "No se pudo crear al tercero" :=
  extractErrorMessage_meta_priority.1 "No se pudo crear al tercero" "other" "err"
    "Internal Server Error" (by decide)

/-- C5: the `procedense` (country code) handed to transport is always
`"768"`: the workflow's create body hardcodes it, the tool's body overrides
any caller-supplied value, and two contexts differing only in the
caller-supplied `procedense` produce identical transport payloads. -/
theorem procedense_always_768 :
    (∀ i : PatientInput,
        (createPatientRequestBody i).lookup "procedense" = some "768") ∧
    (∀ c : CreatePatientContext, (createPatientToolBody c).procedense = "768") ∧
    (∀ (c : CreatePatientContext) (p q : String),
        createPatientToolBody { c with procedense := p } =
        createPatientToolBody { c with procedense := q }) := by
  refine ⟨fun i => rfl, fun c => rfl, fun c p q => rfl⟩

/-- C6: every local validation failure (bad date format, computed age under
18, gender outside m/f, invalid identification, invalid email, invalid
phone) makes the patient workflow fail with the step's specific message
while the list of issued transport requests is empty — zero network calls. -/
theorem validation_failure_means_zero_network_calls :
    (∀ (now : SimpleDate) (oracle : ApiRequest → Except ApiErr UserResp)
        (i : PatientInput) (e : String),
        validatePatientData now i = .error e →
        runPatientWorkflow now oracle i = (.error e, [])) ∧
    (∀ now oracle (i : PatientInput), dateRegexOk i.dob = false →
        runPatientWorkflow now oracle i =
          (.error "La fecha ingresada es inválida. Por favor verifique", [])) ∧
    (∀ now oracle (i : PatientInput), dateRegexOk i.dob = true →
        calculateAge (parseDob i.dob) now < 18 →
        runPatientWorkflow now oracle i =
          (.error "El usuario no puede ser menor de edad", [])) ∧
    (∀ now oracle (i : PatientInput), dateRegexOk i.dob = true →
        ¬ calculateAge (parseDob i.dob) now < 18 →
        i.gender ≠ "m" → i.gender ≠ "f" →
        runPatientWorkflow now oracle i =
          (.error "Gender must be exactly \"m\" or \"f\"", [])) ∧
    (∀ now oracle (i : PatientInput), dateRegexOk i.dob = true →
        ¬ calculateAge (parseDob i.dob) now < 18 →
        (i.gender = "m" ∨ i.gender = "f") →
        validateIdentification i.identification = false →
        runPatientWorkflow now oracle i = (.error "Invalid identification format", [])) ∧
    (∀ now oracle (i : PatientInput), dateRegexOk i.dob = true →
        ¬ calculateAge (parseDob i.dob) now < 18 →
        (i.gender = "m" ∨ i.gender = "f") →
        validateIdentification i.identification = true →
        strTruthy i.email = true → validateEmail (i.email.getD "") = false →
        runPatientWorkflow now oracle i = (.error "Invalid email format", [])) ∧
    (∀ now oracle (i : PatientInput), dateRegexOk i.dob = true →
        ¬ calculateAge (parseDob i.dob) now < 18 →
        (i.gender = "m" ∨ i.gender = "f") →
        validateIdentification i.identification = true →
        (strTruthy i.email = false ∨ validateEmail (i.email.getD "") = true) →
        strTruthy i.phone = true → validatePhone (i.phone.getD "") = false →
        runPatientWorkflow now oracle i = (.error "Invalid phone format", [])) := by
  have habort : ∀ (now : SimpleDate) (oracle : ApiRequest → Except ApiErr UserResp)
      (i : PatientInput) (e : String),
      validatePatientData now i = .error e →
      runPatientWorkflow now oracle i = (.error e, []) := by
    intro now oracle i e h
    simp [runPatientWorkflow, h]
  refine ⟨habort, ?_, ?_, ?_, ?_, ?_, ?_⟩
  · intro now oracle i h
    exact habort now oracle i _ (by simp [validatePatientData, h])
  · intro now oracle i h1 h2
    exact habort now oracle i _ (by simp [validatePatientData, h1, h2])
  · intro now oracle i h1 h2 h3 h4
    exact habort now oracle i _ (by simp [validatePatientData, h1, h2, h3, h4])
  · intro now oracle i h1 h2 h3 h4
    rcases h3 with h3 | h3 <;>
      exact habort now oracle i _ (by simp [validatePatientData, h1, h2, h3, h4])
  · intro now oracle i h1 h2 h3 h4 h5 h6
    rcases h3 with h3 | h3 <;>
      exact habort now oracle i _ (by simp [validatePatientData, h1, h2, h3, h4, h5, h6])
  · intro now oracle i h1 h2 h3 h4 h5 h6 h7
    rcases h3 with h3 | h3 <;> rcases h5 with h5 | h5 <;>
      exact habort now oracle i _ (by simp [validatePatientData, h1, h2, h3, h4, h5, h6, h7])

/-- Witness for C6: the underage scenario (dob 2010-01-01 evaluated on
2024-06-01) fails with the underage message and an empty request list,
whatever the oracle would have answered. -/
theorem validation_failure_means_zero_network_calls_witness :
    runPatientWorkflow ⟨2024, 6, 1⟩ (fun _ => .error ⟨500, "unused"⟩)
      { name := "Juan", lastname := "Pérez", identification := "12345678",
        dob := "2010-01-01", gender := "m" } =
      (.error "El usuario no puede ser menor de edad", []) :=
  validation_failure_means_zero_network_calls.2.2.1 ⟨2024, 6, 1⟩
    (fun _ => .error ⟨500, "unused"⟩)
    { name := "Juan", lastname := "Pérez", identification := "12345678",
      dob := "2010-01-01", gender := "m" }
    (by decide) (by decide)

/-- Concrete input for the existence-check counterexample. -/
def c3Input : PatientInput :=
  { name := "María", lastname := "González", identification := "12345678",
    dob := "1990-03-15", gender := "f" }

/-- Oracle for the existence-check counterexample: the GET read succeeds
with a non-empty `data` but no top-level `status` field (the documented
`{data, meta}` envelope carries no such field); the POST create succeeds. -/
def c3Oracle : ApiRequest → Except ApiErr UserResp := fun rq =>
  if rq.method = "GET" then .ok { data := some {}, status := none }
  else .ok { message := some "ok", data := some { id := some 5 }, status := some 200 }

/-- Counterexample to C3 as stated: here the GET read by identification
succeeds and returns a non-empty result (`data` is present), yet the
check-exists step does not fail — the workflow proceeds to the create step
(the request list contains the POST `/user` call) and finishes
successfully, because the decoded body has no top-level `status: 200`. -/
theorem nonempty_read_can_still_proceed_to_create :
    c3Oracle (readUserRequest "12345678") = .ok { data := some {}, status := none } ∧
    checkPatientExists (.ok { data := some {}, status := none }) = .ok false ∧
    runPatientWorkflow ⟨2024, 3, 16⟩ c3Oracle c3Input =
      (.ok { success := true, patientId := some "5", message := "ok",
             payload := .inl { id := some 5 } },
       [readUserRequest "12345678", createUserRequest c3Input]) := by
  refine ⟨rfl, rfl, ?_⟩
  rfl

/-- C3 amended: the check-exists step fails with `"El tercero ya existe"`
and the workflow aborts before the create call exactly when the successful
read's body has a truthy `data` AND a top-level `status` field equal
to 200; when the `status` field is absent or different the step treats the
patient as absent even if `data` is non-empty.  The last conjunct shows the
abort: after a read that triggers the already-exists failure, the workflow
stops with only the GET request issued. -/
theorem checkExists_aborts_exactly_on_body_status_200 :
    (∀ r : UserResp, r.data.isSome = true → r.status = some 200 →
        checkPatientExists (.ok r) = .error "El tercero ya existe") ∧
    (∀ r : UserResp, ¬ r.status = some 200 →
        checkPatientExists (.ok r) = .ok false) ∧
    (∀ (now : SimpleDate) (oracle : ApiRequest → Except ApiErr UserResp)
        (i : PatientInput) (v : ValidatedPatient),
        validatePatientData now i = .ok v →
        checkPatientExists (oracle (readUserRequest i.identification)) =
          .error "El tercero ya existe" →
        runPatientWorkflow now oracle i =
          (.error "El tercero ya existe", [readUserRequest i.identification])) := by
  refine ⟨?_, ?_, ?_⟩
  · intro r h1 h2
    have hc : containsSub "El tercero ya existe" "ya existe" = true := by decide
    simp [checkPatientExists, h1, h2, hc]
  · intro r h
    simp [checkPatientExists, h]
  · intro now oracle i v hv hc
    simp [runPatientWorkflow, hv, hc]

/-- Witness for the amended C3 at a concrete response carrying both a
non-empty `data` and `status: 200`. -/
theorem checkExists_aborts_exactly_on_body_status_200_witness :
    checkPatientExists (.ok { data := some {}, status := some 200 }) =
      .error "El tercero ya existe" :=
  checkExists_aborts_exactly_on_body_status_200.1
    { data := some {}, status := some 200 } rfl rfl

/-- Counterexample to C4 as stated: a transport-level HTTP 500 error whose
extracted message is "Error interno del servidor" (which contains neither
"500" nor "no existe") makes the check-exists step rethrow — the workflow
aborts instead of treating the patient as absent and continuing. -/
theorem server_error_read_can_abort :
    checkPatientExists (.error ⟨500, "Error interno del servidor"⟩) =
      .error "Error interno del servidor" := by
  rfl

/-- C4 amended: on a failed read the step's decision is purely a substring
test on the error message, not on the HTTP status: a message containing
"ya existe" is rethrown (checked first); otherwise a message containing
"500" or "no existe" is treated as "patient absent" and the pipeline
continues; any other message — including that of a genuine HTTP 500 whose
extracted message lacks the substring "500" — is rethrown. -/
theorem checkExists_error_policy_by_substring :
    ∀ e : ApiErr,
      (containsSub e.message "ya existe" = true →
        checkPatientExists (.error e) = .error e.message) ∧
      (containsSub e.message "ya existe" = false →
        (containsSub e.message "500" = true ∨ containsSub e.message "no existe" = true) →
        checkPatientExists (.error e) = .ok false) ∧
      (containsSub e.message "ya existe" = false →
        containsSub e.message "500" = false → containsSub e.message "no existe" = false →
        checkPatientExists (.error e) = .error e.message) := by
  intro e
  refine ⟨fun h => ?_, fun h1 h2 => ?_, fun h1 h2 h3 => ?_⟩
  · simp [checkPatientExists, h]
  · rcases h2 with h2 | h2
    · simp [checkPatientExists, h1, h2]
    · by_cases h5 : containsSub e.message "500" = true <;>
        simp [checkPatientExists, h1, h2, h5]
  · simp [checkPatientExists, h1, h2, h3]

/-- Witness for the amended C4: the remote's actual not-found message (a
500-status response saying "... el mismo, no existe") is treated as
absent and the pipeline continues. -/
theorem checkExists_error_policy_by_substring_witness :
    checkPatientExists
        (.error ⟨500, "No se pudo obtener al tercero o el mismo, no existe"⟩) =
      .ok false :=
  (checkExists_error_policy_by_substring
      ⟨500, "No se pudo obtener al tercero o el mismo, no existe"⟩).2.1
    (by decide) (Or.inr (by decide))

/-- Counterexample to C1 as stated: product creation succeeded (id 890,
status 200), the variant call throws "Network failure", and the
consolidated result does keep `success = true` with the product id — but
TWO warning strings containing the failure reason are appended (one pushed
by the variant step, a second `"Variante: ..."` pushed again by the
consolidate step), not exactly one. -/
theorem variant_failure_appends_two_warnings_example :
    consolidateResults (createVariantStep
        { response := {}, productId := some (.int 890), status := 200,
          warnings := none, variant_code := some "Lote-2024-001", flags := {} }
        (.error ⟨500, "Network failure"⟩)) =
      .ok { success := true, productId := .int 890, variantId := none,
            message := "Producto creado exitosamente (variante no pudo ser creada)",
            warnings := some ["Error al crear la variante: Network failure",
                              "Variante: Network failure"],
            productData := (.int 890, 200), variantData := none } := by
  rfl

/-- C1 amended: when product creation succeeded (non-zero numeric id,
status 200), a variant code was supplied, and the variant call throws an
error with message `m ≠ ""`, the consolidated result still has
`success = true` with the product id, and exactly TWO warning strings are
appended after any product-stage warnings — one by the variant step and one
more by the consolidate step — each containing the failure reason `m`. -/
theorem variant_failure_downgraded_with_two_warnings :
    ∀ (s2 : Step2Out) (e : ApiErr) (n : Int) (vc m : String),
      s2.productId = some (.int n) → n ≠ 0 → s2.status = 200 →
      s2.variant_code = some vc → vc ≠ "" → (jsTrim vc).length ≠ 0 →
      e.message = m → m ≠ "" →
      consolidateResults (createVariantStep s2 (.error e)) =
        .ok { success := true, productId := .int n, variantId := none,
              message := "Producto creado exitosamente (variante no pudo ser creada)",
              warnings := some (s2.warnings.getD [] ++
                ["Error al crear la variante: " ++ m, "Variante: " ++ m]),
              productData := (.int n, 200), variantData := none } ∧
      containsSub ("Error al crear la variante: " ++ m) m = true ∧
      containsSub ("Variante: " ++ m) m = true := by
  intro s2 e n vc m h1 h2 h3 h4 h5 h6 h7 h8
  refine ⟨?_, containsSub_append_right _ m, containsSub_append_right _ m⟩
  obtain ⟨resp, pid, st, w, vco, fl⟩ := s2
  obtain ⟨sc, msg⟩ := e
  simp only at h1 h3 h4 h7
  subst h1 h3 h4 h7
  simp [createVariantStep, consolidateResults, strTruthy, jsNumOptTruthy,
        h2, h5, h6, h8, List.append_assoc]

/-- Witness for the amended C1: concrete product id 7 with an existing
product-stage warning, variant code "V-1", variant failure "timeout". -/
theorem variant_failure_downgraded_with_two_warnings_witness :
    consolidateResults (createVariantStep
        { response := {}, productId := some (.int 7), status := 200,
          warnings := some ["W0"], variant_code := some "V-1", flags := {} }
        (.error ⟨503, "timeout"⟩)) =
      .ok { success := true, productId := .int 7, variantId := none,
            message := "Producto creado exitosamente (variante no pudo ser creada)",
            warnings := some (["W0"] ++
              ["Error al crear la variante: " ++ "timeout", "Variante: " ++ "timeout"]),
            productData := (.int 7, 200), variantData := none } ∧
    containsSub ("Error al crear la variante: " ++ "timeout") "timeout" = true ∧
    containsSub ("Variante: " ++ "timeout") "timeout" = true :=
  variant_failure_downgraded_with_two_warnings
    { response := {}, productId := some (.int 7), status := 200,
      warnings := some ["W0"], variant_code := some "V-1", flags := {} }
    ⟨503, "timeout"⟩ 7 "V-1" "timeout"
    rfl (by decide) rfl rfl (by decide) (by decide) rfl (by decide)

/-- Concrete validated product for the 207 counterexample. -/
def c8Product : ProductValidated :=
  { name := "Equipo de Rayos X", type := "assets", list_price := 50000,
    category := "2", default_uom := 1 }

/-- Counterexample to C8 as stated: an HTTP 207 response whose decoded
envelope body carries a message but no top-level `status` field — the
transport's 207 branch returns the decoded body as a successful result,
yet the create-product step attaches ZERO warnings (it keys on the body's
own `status` field, which defaults to 200), not exactly one. -/
theorem http207_can_attach_zero_warnings :
    apiCall207Result (.json { message := some "advertencia precio", dataId := some (.num 9) }) =
      { message := some "advertencia precio", dataId := some (.num 9) } ∧
    createProductStep c8Product
        (.ok (apiCall207Result
          (.json { message := some "advertencia precio", dataId := some (.num 9) }))) =
      .ok { response := { message := some "advertencia precio", dataId := some (.num 9) },
            productId := some (.int 9), status := 200, warnings := none,
            variant_code := none, flags := {} } :=
  ⟨rfl, rfl⟩

/-- C8 amended: the transport's HTTP-207 branch returns the best-effort
decoded JSON body (`{}` on decode failure) as a successful result, and the
create-product step attaches exactly one warning precisely when the decoded
body's own `status` field equals 207; that single warning is the specific
template-category warning when the message contains "template-category",
else the specific price warning when it contains "precio", else the raw
message (or a generic default when the message is falsy). -/
theorem body_status_207_attaches_exactly_one_warning :
    (∀ j : ProdResp, apiCall207Result (.json j) = j) ∧
    (∀ raw : String, apiCall207Result (.notJson raw) = ({} : ProdResp)) ∧
    (∀ (v : ProductValidated) (r : ProdResp), r.status = some 207 →
        createProductStep v (.ok r) =
          .ok { response := r, productId := extractProductId (some r), status := 207,
                warnings := some [productWarning207 r.message],
                variant_code := v.variant_code,
                flags := ⟨v.is_medicament, v.is_medical_supply, v.is_vaccine, v.is_bed,
                          v.is_insurance_plan, v.is_prothesis⟩ }) ∧
    (∀ msg : Option String, optContains msg "template-category" = true →
        productWarning207 msg =
          "Producto creado exitosamente pero ocurrió un problema al crear la relación template-category") ∧
    (∀ msg : Option String, optContains msg "template-category" = false →
        optContains msg "precio" = true →
        productWarning207 msg =
          "Producto creado exitosamente pero ocurrió un problema al agregar el precio en su tabla relacional") ∧
    (∀ msg : Option String, optContains msg "template-category" = false →
        optContains msg "precio" = false →
        productWarning207 msg = strOr msg "Producto creado con advertencias") := by
  refine ⟨fun j => rfl, fun raw => rfl, ?_, ?_, ?_, ?_⟩
  · intro v r h
    simp [createProductStep, h, statusOr200]
  · intro msg h
    simp [productWarning207, h]
  · intro msg h1 h2
    simp [productWarning207, h1, h2]
  · intro msg h1 h2
    simp [productWarning207, h1, h2]

/-- Witness for the amended C8: a decoded body with `status: 207` and a
price-problem message yields exactly the single specific price warning. -/
theorem body_status_207_attaches_exactly_one_warning_witness :
    createProductStep c8Product
        (.ok { status := some 207, message := some "problema con el precio" }) =
      .ok { response := { status := some 207, message := some "problema con el precio" },
            productId := none, status := 207,
            warnings := some ["Producto creado exitosamente pero ocurrió un problema al agregar el precio en su tabla relacional"],
            variant_code := none, flags := {} } :=
  body_status_207_attaches_exactly_one_warning.2.2.1 c8Product
    { status := some 207, message := some "problema con el precio" } rfl

end GnuAgent
